import Mathlib

/-
Verification of the portfolio-tracker data-access layer (backend.py,
class FinancialPortfolioTracker).

The relational store is embedded as an explicit state (two tables, each a
list of rows). Each service operation is a pure function from the state
and its arguments to the new state and the returned value. A database
error on the single SQL statement an operation wraps is modelled by a
boolean flag `err` passed to the operation: `err = true` means psycopg2
raised on `cursor.execute`, in which case the code rolls back (the state
is returned unchanged) and reports failure.

Monetary amounts and share quantities are PostgreSQL `numeric` values,
surfaced in Python as `Decimal`; they are embedded as rationals (`ℚ`),
over which the decimal arithmetic of the code is exact. Dates are opaque
strings. `datetime.now().date()` in `add_transaction` is modelled by an
ambient clock value `today` that is not part of the operation's caller
arguments.
-/

/-- An asset row of the `assets` table: ticker, purchase date, share
quantity, total cost basis, asset class. -/
structure Asset where
  ticker : String
  purchase_date : String
  shares : ℚ
  cost_basis : ℚ
  asset_class : String
deriving Repr, DecidableEq

/-- A transaction row of the `transactions` table. -/
structure Txn where
  ticker : String
  transaction_date : String
  transaction_type : String
  amount : ℚ
  notes : Option String
deriving Repr, DecidableEq

/-- The authoritative relational state: the `assets` table and the
`transactions` table, each in insertion order. -/
structure DBState where
  assets : List Asset
  transactions : List Txn
deriving Repr, DecidableEq

/-- Embeds `create_asset` (backend.py lines 45-65). The INSERT carries
`ON CONFLICT (ticker) DO NOTHING`: if some row already has the given
ticker the statement inserts nothing, and the function still commits and
returns True. On a statement error it rolls back and returns False.
The conflict test relies on the unique constraint on `ticker`, which the
spec's external schema declares (`assets(ticker PRIMARY KEY/UNIQUE, ...)`). -/
def create_asset (db : DBState) (ticker purchase_date : String)
    (shares cost_basis : ℚ) (asset_class : String) (err : Bool) :
    DBState × Bool :=
  if err then (db, false)
  else if ∃ x ∈ db.assets, x.ticker = ticker then (db, true)
  else (⟨db.assets ++ [⟨ticker, purchase_date, shares, cost_basis, asset_class⟩],
         db.transactions⟩, true)

/-- Puts an asset into a ticker-sorted list, keeping it sorted
(helper for the `ORDER BY ticker` of `read_all_assets`). -/
def insertByTicker (a : Asset) : List Asset → List Asset
  | [] => [a]
  | b :: bs => if a.ticker ≤ b.ticker then a :: b :: bs else b :: insertByTicker a bs

/-- Sorts an asset list by ticker ascending, modelling `ORDER BY ticker`. -/
def sortByTicker : List Asset → List Asset
  | [] => []
  | a :: as => insertByTicker a (sortByTicker as)

/-- Embeds `read_all_assets` (backend.py lines 67-76): SELECT * FROM
assets ORDER BY ticker. On a statement error it returns an empty frame. -/
def read_all_assets (db : DBState) (err : Bool) : List Asset :=
  if err then [] else sortByTicker db.assets

/-- Modelled from the spec: the relational schema is external to the
repository ("assumed pre-existing, not created by this system"), so the
foreign key's behavior when an asset's ticker is renamed is not in src/.
The spec states "renaming the ticker ... must preserve referential
association to its transactions" and "key rename propagates": renaming a
referenced ticker rewrites the referencing transaction rows to the new
ticker. -/
def cascadeRename (original_ticker new_ticker : String) (ts : List Txn) :
    List Txn :=
  ts.map (fun t =>
    if t.ticker = original_ticker then
      ⟨new_ticker, t.transaction_date, t.transaction_type, t.amount, t.notes⟩
    else t)

/-- Embeds `update_asset` (backend.py lines 78-97): UPDATE assets SET
every column (ticker included) WHERE ticker = original_ticker, then
commit and return True; a row update of a referenced ticker propagates to
its transactions (see `cascadeRename`). The cascade fires only when some
asset row actually matched. No check is made that any row matched: a
vacuous update still commits and returns True. On error: rollback,
False. -/
def update_asset (db : DBState) (original_ticker new_ticker purchase_date : String)
    (shares cost_basis : ℚ) (asset_class : String) (err : Bool) :
    DBState × Bool :=
  if err then (db, false)
  else
    (⟨db.assets.map (fun a =>
        if a.ticker = original_ticker then
          ⟨new_ticker, purchase_date, shares, cost_basis, asset_class⟩
        else a),
      if ∃ x ∈ db.assets, x.ticker = original_ticker then
        cascadeRename original_ticker new_ticker db.transactions
      else db.transactions⟩, true)

/-- Modelled from the spec: the relational schema is external to the
repository, so the cascading delete is not in src/ (backend.py only notes
"The database will handle transaction deletion"). The spec declares
`transactions(ticker REFERENCES assets, ...)` "with cascading delete on
the asset reference": deleting a referenced asset row removes the
transaction rows referencing it. -/
def cascadeDelete (ticker : String) (ts : List Txn) : List Txn :=
  ts.filter (fun t => ¬ t.ticker = ticker)

/-- Embeds `delete_asset` (backend.py lines 99-111): DELETE FROM assets
WHERE ticker = %s, commit, return True; the database cascades the delete
to the referencing transactions when a row is actually deleted (see
`cascadeDelete`). Deleting a nonexistent ticker matches no row, still
commits and returns True. On error: rollback, False. -/
def delete_asset (db : DBState) (ticker : String) (err : Bool) :
    DBState × Bool :=
  if err then (db, false)
  else if ∃ x ∈ db.assets, x.ticker = ticker then
    (⟨db.assets.filter (fun a => ¬ a.ticker = ticker),
      cascadeDelete ticker db.transactions⟩, true)
  else (db, true)

/-- Embeds `add_transaction` (backend.py lines 113-131): INSERT INTO
transactions with the application-computed `datetime.now().date()` as the
transaction_date (modelled by the ambient clock value `today`), commit,
return True. On error: rollback, False. -/
def add_transaction (db : DBState) (ticker transaction_type : String)
    (amount : ℚ) (notes : Option String) (today : String) (err : Bool) :
    DBState × Bool :=
  if err then (db, false)
  else (⟨db.assets,
         db.transactions ++ [⟨ticker, today, transaction_type, amount, notes⟩]⟩,
        true)

/-- Parameter tuple of the INSERT statement that `add_transaction` sends
to the database (backend.py lines 118-124). Each field that the
application supplies explicitly is `some`; a field left to a server-side
default would be `none`. -/
structure InsertTransactionParams where
  ticker : Option String
  transaction_date : Option String
  transaction_type : Option String
  amount : Option ℚ
  notes : Option (Option String)
deriving Repr, DecidableEq

/-- Builds the parameter tuple `(ticker, datetime.now().date(),
transaction_type, amount, notes)` of backend.py line 123: every column,
the transaction_date included, is supplied by the application. -/
def add_transaction_stmt (ticker transaction_type : String) (amount : ℚ)
    (notes : Option String) (today : String) : InsertTransactionParams :=
  ⟨some ticker, some today, some transaction_type, some amount, some notes⟩

/-- Result dictionary of `get_portfolio_summary` when it returns a
non-empty dictionary. -/
structure PortfolioSummary where
  total_assets_count : ℕ
  total_cost_basis : ℚ
  total_market_value : ℚ
  total_gain_loss : ℚ
  avg_cost_basis : ℚ
deriving Repr, DecidableEq

/-- Embeds `get_portfolio_summary` (backend.py lines 146-181). On a
statement error the code returns the empty dictionary `{}` (modelled as
`none`); on an empty assets table it returns the all-zero dictionary.
Otherwise, per row: current_price = cost_basis * Decimal(1.10),
current_value = shares * current_price, gain_loss = current_value -
cost_basis; the totals are the column sums and avg_cost_basis is the mean
of cost_basis. -/
def get_portfolio_summary (db : DBState) (err : Bool) :
    Option PortfolioSummary :=
  if err then none
  else if db.assets.isEmpty then some ⟨0, 0, 0, 0, 0⟩
  else
    some ⟨db.assets.length,
          (db.assets.map (fun a => a.cost_basis)).sum,
          (db.assets.map (fun a => a.shares * (a.cost_basis * (11 / 10 : ℚ)))).sum,
          (db.assets.map (fun a =>
            a.shares * (a.cost_basis * (11 / 10 : ℚ)) - a.cost_basis)).sum,
          (db.assets.map (fun a => a.cost_basis)).sum / db.assets.length⟩

/-- Embeds `get_asset_allocation` (backend.py lines 183-193): SELECT
asset_class, SUM(cost_basis) FROM assets GROUP BY asset_class, returned
as a mapping from class to summed cost basis (one entry per distinct
class). On a statement error it returns the empty mapping. -/
def get_asset_allocation (db : DBState) (err : Bool) : List (String × ℚ) :=
  if err then []
  else
    ((db.assets.map (fun a => a.asset_class)).dedup).map
      (fun c => (c, ((db.assets.filter (fun a => a.asset_class = c)).map
                      (fun a => a.cost_basis)).sum))

/-- Result dictionary of `get_insights` when it returns a non-empty
dictionary. -/
structure Insights where
  total_assets : ℕ
  total_cost_basis : ℚ
  avg_cost_basis : ℚ
  min_shares : ℚ
  max_shares : ℚ
deriving Repr, DecidableEq

/-- SQL SUM aggregate: NULL (none) on no rows, the sum otherwise. -/
def sqlSum (l : List ℚ) : Option ℚ :=
  if l.isEmpty then none else some l.sum

/-- SQL AVG aggregate: NULL (none) on no rows, the mean otherwise. -/
def sqlAvg (l : List ℚ) : Option ℚ :=
  if l.isEmpty then none else some (l.sum / l.length)

/-- SQL MIN aggregate: NULL (none) on no rows, the least value otherwise. -/
def sqlMin : List ℚ → Option ℚ
  | [] => none
  | x :: xs => some ((x :: xs).foldl min x)

/-- SQL MAX aggregate: NULL (none) on no rows, the greatest value otherwise. -/
def sqlMax : List ℚ → Option ℚ
  | [] => none
  | x :: xs => some ((x :: xs).foldl max x)

/-- Embeds `get_insights` (backend.py lines 195-221): SELECT COUNT(*),
SUM(cost_basis), AVG(cost_basis), MIN(shares), MAX(shares) FROM assets.
The aggregate query always yields exactly one row whose COUNT is never
NULL, so the code's guard `result and result[0] is not None` takes the
first branch, replacing each NULL aggregate by 0.0. On a statement error
the code returns the empty dictionary `{}` (modelled as `none`). -/
def get_insights (db : DBState) (err : Bool) : Option Insights :=
  if err then none
  else
    some ⟨db.assets.length,
          (sqlSum (db.assets.map (fun a => a.cost_basis))).getD 0,
          (sqlAvg (db.assets.map (fun a => a.cost_basis))).getD 0,
          (sqlMin (db.assets.map (fun a => a.shares))).getD 0,
          (sqlMax (db.assets.map (fun a => a.shares))).getD 0⟩

/-- Summing a pointwise difference over a list splits into a difference of
sums. -/
theorem sum_map_sub (l : List Asset) (f g : Asset → ℚ) :
    (l.map (fun x => f x - g x)).sum = (l.map f).sum - (l.map g).sum := by
  induction l with
  | nil => simp
  | cons a l ih =>
    simp only [List.map_cons, List.sum_cons, ih]
    ring

/-- Membership in `insertByTicker`. -/
theorem mem_insertByTicker (x a : Asset) (l : List Asset) :
    x ∈ insertByTicker a l ↔ x = a ∨ x ∈ l := by
  induction l with
  | nil => simp [insertByTicker]
  | cons b bs ih =>
    by_cases hab : a.ticker ≤ b.ticker
    · simp [insertByTicker, hab]
    · simp [insertByTicker, hab, ih]
      tauto

/-- Sorting by ticker preserves membership. -/
theorem mem_sortByTicker (x : Asset) (l : List Asset) :
    x ∈ sortByTicker l ↔ x ∈ l := by
  induction l with
  | nil => simp [sortByTicker]
  | cons a as ih => simp [sortByTicker, mem_insertByTicker, ih]

/-- C3: for every state and every create_asset call whose ticker already
occurs in the assets table, the call leaves the whole store unchanged and
returns True (ON CONFLICT DO NOTHING: first write wins). -/
theorem C3_create_duplicate_noop (db : DBState) (t d k : String) (s c : ℚ)
    (h : ∃ x ∈ db.assets, x.ticker = t) :
    create_asset db t d s c k false = (db, true) := by
  simp [create_asset, h]

/-- Witness for C3: a store holding an "AAPL" row, into which a second
"AAPL" row with different attributes is inserted. -/
theorem C3_witness :
    (∃ x ∈ (DBState.mk [⟨"AAPL", "2024-01-01", 10, 1500, "Equities"⟩] []).assets,
      x.ticker = "AAPL") ∧
    create_asset ⟨[⟨"AAPL", "2024-01-01", 10, 1500, "Equities"⟩], []⟩
        "AAPL" "2025-06-01" 5 100 "Crypto" false
      = (⟨[⟨"AAPL", "2024-01-01", 10, 1500, "Equities"⟩], []⟩, true) :=
  ⟨⟨⟨"AAPL", "2024-01-01", 10, 1500, "Equities"⟩, by simp, rfl⟩,
   C3_create_duplicate_noop _ _ _ _ _ _
     ⟨⟨"AAPL", "2024-01-01", 10, 1500, "Equities"⟩, by simp, rfl⟩⟩

/-- C5 counterexample: on a database error, get_portfolio_summary does
not return the all-zero structure; it returns the empty dictionary
(backend.py line 181: `return {}`). -/
theorem C5_counterexample :
    get_portfolio_summary ⟨[], []⟩ true ≠ some ⟨0, 0, 0, 0, 0⟩ := by
  simp [get_portfolio_summary]

/-- C5 amended: get_portfolio_summary returns the all-zero structure when
the assets table is empty, but on a database error it returns the empty
dictionary (no fields at all) instead. -/
theorem C5_empty_zero_error_empty_dict (txns : List Txn) (db : DBState) :
    get_portfolio_summary ⟨[], txns⟩ false = some ⟨0, 0, 0, 0, 0⟩ ∧
    get_portfolio_summary db true = none := by
  exact ⟨rfl, rfl⟩

/-- C6: when the assets table is empty (whatever the transactions table
holds), get_insights returns the structure with every field zero rather
than failing: COUNT is 0, and each NULL aggregate is replaced by 0.0. -/
theorem C6_insights_empty_all_zero (txns : List Txn) :
    get_insights ⟨[], txns⟩ false = some ⟨0, 0, 0, 0, 0⟩ := rfl

/-- C7: each mutating operation (create_asset, update_asset,
delete_asset, add_transaction), when its single SQL statement fails with
a database error, rolls back (the store is returned unchanged) and
returns False instead of propagating the exception; when the statement
succeeds it commits and returns True. -/
theorem C7_error_rollback_success_commit (db : DBState)
    (t nt d k ty today : String) (s c amt : ℚ) (n : Option String) :
    create_asset db t d s c k true = (db, false) ∧
    (create_asset db t d s c k false).2 = true ∧
    update_asset db t nt d s c k true = (db, false) ∧
    (update_asset db t nt d s c k false).2 = true ∧
    delete_asset db t true = (db, false) ∧
    (delete_asset db t false).2 = true ∧
    add_transaction db t ty amt n today true = (db, false) ∧
    (add_transaction db t ty amt n today false).2 = true := by
  refine ⟨rfl, ?_, rfl, rfl, rfl, ?_, rfl, rfl⟩ <;>
    · by_cases hx : ∃ x ∈ db.assets, x.ticker = t <;>
        simp [create_asset, delete_asset, hx]

/-- C9 counterexample: the transaction_date of the INSERT issued by
add_transaction is not left to a server-side default: the application
supplies it explicitly in the parameter tuple (backend.py line 123), so
it is not server-assigned. -/
theorem C9_counterexample :
    (add_transaction_stmt "AAPL" "Buy" 100 none "2024-01-01").transaction_date
      ≠ none := by
  simp [add_transaction_stmt]

/-- C9 amended: transaction_date is not a caller parameter of
add_transaction; the application computes the current date at the moment
of the call (`datetime.now().date()`) and supplies it explicitly in the
INSERT, so the stored row's date equals the date at which the call
executes — assigned by the application, not by the server. -/
theorem C9_date_is_call_time_app_assigned (db : DBState) (t ty : String)
    (amt : ℚ) (n : Option String) (today : String) :
    (add_transaction db t ty amt n today false).1.transactions
      = db.transactions ++ [⟨t, today, ty, amt, n⟩] ∧
    (add_transaction_stmt t ty amt n today).transaction_date = some today :=
  ⟨rfl, rfl⟩

/-- C10: when no asset row has ticker t, update_asset with
original_ticker = t and delete_asset with ticker = t both leave the store
entirely unchanged yet return True: the existence precondition is never
checked and its violation is not reported. -/
theorem C10_missing_ticker_silent_success (db : DBState) (t nt d k : String)
    (s c : ℚ) (h : ∀ x ∈ db.assets, x.ticker ≠ t) :
    update_asset db t nt d s c k false = (db, true) ∧
    delete_asset db t false = (db, true) := by
  have hne : ¬ ∃ x ∈ db.assets, x.ticker = t := by
    rintro ⟨x, hx, hxt⟩
    exact h x hx hxt
  constructor
  · simp only [update_asset, if_neg hne, Bool.false_eq_true, if_false]
    have hmap : db.assets.map (fun a =>
        if a.ticker = t then (⟨nt, d, s, c, k⟩ : Asset) else a) = db.assets := by
      rw [List.map_congr_left (fun a ha => if_neg (h a ha))]
      exact db.assets.map_id
    rw [hmap]
  · simp [delete_asset, hne]

/-- Witness for C10: a store holding only an "MSFT" row, updated and
deleted under the absent ticker "AAPL". -/
theorem C10_witness :
    (∀ x ∈ (DBState.mk [⟨"MSFT", "2024-01-01", 10, 1500, "Equities"⟩] []).assets,
      x.ticker ≠ "AAPL") ∧
    (update_asset ⟨[⟨"MSFT", "2024-01-01", 10, 1500, "Equities"⟩], []⟩
        "AAPL" "AAPLX" "2025-06-01" 5 100 "Crypto" false
      = (⟨[⟨"MSFT", "2024-01-01", 10, 1500, "Equities"⟩], []⟩, true) ∧
    delete_asset ⟨[⟨"MSFT", "2024-01-01", 10, 1500, "Equities"⟩], []⟩
        "AAPL" false
      = (⟨[⟨"MSFT", "2024-01-01", 10, 1500, "Equities"⟩], []⟩, true)) :=
  ⟨by simp, C10_missing_ticker_silent_success _ _ _ _ _ _ _ (by simp)⟩

/-- Splitting a cost-basis sum over a class filter and its complement
recovers the sum over the whole table. -/
theorem filter_class_sum (l : List Asset) (c : String) :
    ((l.filter (fun a => a.asset_class = c)).map (fun a => a.cost_basis)).sum
      + ((l.filter (fun a => !decide (a.asset_class = c))).map (fun a => a.cost_basis)).sum
      = (l.map (fun a => a.cost_basis)).sum := by
  induction l with
  | nil => simp
  | cons a l ih =>
    by_cases hc : a.asset_class = c
    · simp only [List.filter_cons, hc, decide_True, Bool.not_true, Bool.false_eq_true,
        if_false, if_true, List.map_cons, List.sum_cons]
      rw [← ih]; ring
    · simp only [List.filter_cons, hc, decide_False, Bool.not_false, if_true,
        Bool.false_eq_true, if_false, List.map_cons, List.sum_cons]
      rw [← ih]; ring

/-- Grouping the cost-basis sum by a duplicate-free list of classes that
covers every row partitions the total: the per-class sums add up to the
sum over the whole table. -/
theorem alloc_sum_eq (cs : List String) (l : List Asset) (hnd : cs.Nodup)
    (hcov : ∀ a ∈ l, a.asset_class ∈ cs) :
    (cs.map (fun c => ((l.filter (fun a => a.asset_class = c)).map
        (fun a => a.cost_basis)).sum)).sum
      = (l.map (fun a => a.cost_basis)).sum := by
  induction cs generalizing l with
  | nil =>
    have hl : l = [] := by
      cases l with
      | nil => rfl
      | cons a l => exact absurd (hcov a (List.mem_cons_self a l)) (List.not_mem_nil _)
    subst hl; simp
  | cons c cs ih =>
    obtain ⟨hc, hnd'⟩ := List.nodup_cons.mp hnd
    rw [List.map_cons, List.sum_cons]
    have hfe : ∀ c' ∈ cs,
        (l.filter (fun a => !decide (a.asset_class = c))).filter
            (fun a => a.asset_class = c')
          = l.filter (fun a => a.asset_class = c') := by
      intro c' hc'
      have hne : c' ≠ c := fun e => hc (e ▸ hc')
      rw [List.filter_filter]
      apply List.filter_congr
      intro a _
      by_cases h' : a.asset_class = c'
      · simp [h', hne]
      · simp [h']
    have hcov' : ∀ a ∈ l.filter (fun a => !decide (a.asset_class = c)),
        a.asset_class ∈ cs := by
      intro a ha
      rw [List.mem_filter] at ha
      have h2 : ¬ a.asset_class = c := by simpa using ha.2
      rcases List.mem_cons.mp (hcov a ha.1) with h | h
      · exact absurd h h2
      · exact h
    have hmap : cs.map (fun q => ((l.filter (fun a => a.asset_class = q)).map
          (fun a => a.cost_basis)).sum)
        = cs.map (fun q => (((l.filter (fun a => !decide (a.asset_class = c))).filter
            (fun a => a.asset_class = q)).map (fun a => a.cost_basis)).sum) := by
      apply List.map_congr_left
      intro q hq
      rw [hfe q hq]
    rw [hmap, ih (l.filter (fun a => !decide (a.asset_class = c))) hnd' hcov']
    exact filter_class_sum l c

/-- C1: for every non-empty assets table, get_portfolio_summary returns a
dictionary whose total_market_value is the sum of shares * cost_basis *
1.10 over the rows, whose total_cost_basis is the sum of cost_basis, and
whose total_gain_loss is total_market_value - total_cost_basis. -/
theorem C1_summary_formulas (db : DBState) (h : db.assets ≠ []) :
    ∃ s, get_portfolio_summary db false = some s ∧
      s.total_cost_basis = (db.assets.map (fun a => a.cost_basis)).sum ∧
      s.total_market_value
        = (db.assets.map (fun a => a.shares * a.cost_basis * (11 / 10 : ℚ))).sum ∧
      s.total_gain_loss = s.total_market_value - s.total_cost_basis := by
  have hne : db.assets.isEmpty = false := by
    simpa [List.isEmpty_iff] using h
  refine ⟨⟨db.assets.length,
          (db.assets.map (fun a => a.cost_basis)).sum,
          (db.assets.map (fun a => a.shares * (a.cost_basis * (11 / 10 : ℚ)))).sum,
          (db.assets.map (fun a =>
            a.shares * (a.cost_basis * (11 / 10 : ℚ)) - a.cost_basis)).sum,
          (db.assets.map (fun a => a.cost_basis)).sum / db.assets.length⟩,
        ?_, rfl, ?_, ?_⟩
  · simp [get_portfolio_summary, hne]
  · exact congrArg List.sum (List.map_congr_left fun a _ => by ring)
  · exact sum_map_sub db.assets _ _

/-- Witness for C1: the formulas evaluated on a one-row table. -/
theorem C1_witness :
    (DBState.mk [⟨"AAPL", "2024-01-01", 10, 1500, "Equities"⟩] []).assets ≠ [] ∧
    (∃ s, get_portfolio_summary
        (DBState.mk [⟨"AAPL", "2024-01-01", 10, 1500, "Equities"⟩] []) false = some s ∧
      s.total_cost_basis
        = ((DBState.mk [⟨"AAPL", "2024-01-01", 10, 1500, "Equities"⟩] []).assets.map
            (fun a => a.cost_basis)).sum ∧
      s.total_market_value
        = ((DBState.mk [⟨"AAPL", "2024-01-01", 10, 1500, "Equities"⟩] []).assets.map
            (fun a => a.shares * a.cost_basis * (11 / 10 : ℚ))).sum ∧
      s.total_gain_loss = s.total_market_value - s.total_cost_basis) :=
  ⟨by simp, C1_summary_formulas _ (by simp)⟩

/-- C2: on the spec's scenario table (one row: "AAPL", 2024-01-01, 10
shares, cost_basis 1500, "Equities"), the code returns total_cost_basis =
1500, total_market_value = 16500 and total_gain_loss = 15000 — not the
1650 and 150 the claim states: the code multiplies the 1.10-marked-up
cost basis by the share count although cost_basis is the total paid, so
the "10% gain" its comment promises comes out as a 1000% gain here. -/
theorem C2_scenario_code_result :
    get_portfolio_summary ⟨[⟨"AAPL", "2024-01-01", 10, 1500, "Equities"⟩], []⟩ false
      = some ⟨1, 1500, 16500, 15000, 1500⟩ ∧
    get_portfolio_summary ⟨[⟨"AAPL", "2024-01-01", 10, 1500, "Equities"⟩], []⟩ false
      ≠ some ⟨1, 1500, 1650, 150, 1500⟩ := by
  constructor <;> norm_num [get_portfolio_summary]

/-- C8: for every state, the values of the mapping returned by
get_asset_allocation sum to the total cost basis over all asset rows. -/
theorem C8_allocation_total (db : DBState) :
    ((get_asset_allocation db false).map Prod.snd).sum
      = (db.assets.map (fun a => a.cost_basis)).sum := by
  show ((((db.assets.map (fun a => a.asset_class)).dedup).map
      (fun c => (c, ((db.assets.filter (fun a => a.asset_class = c)).map
        (fun a => a.cost_basis)).sum))).map Prod.snd).sum = _
  rw [List.map_map]
  exact alloc_sum_eq _ _ (List.nodup_dedup _)
    (fun a ha => List.mem_dedup.mpr (List.mem_map_of_mem _ ha))

/-- C4: for every state holding an "AAPL" asset, after a successful
update_asset renaming "AAPL" to "AAPLX" the asset listing contains a row
for "AAPLX" and none for "AAPL", every transaction previously referencing
"AAPL" is present renamed to "AAPLX", and no transaction still references
"AAPL": the key rename preserves the asset-transaction association. -/
theorem C4_rename_propagates (db : DBState) (d k : String) (s c : ℚ)
    (h : ∃ x ∈ db.assets, x.ticker = "AAPL") :
    (update_asset db "AAPL" "AAPLX" d s c k false).2 = true ∧
    (∃ x ∈ read_all_assets (update_asset db "AAPL" "AAPLX" d s c k false).1 false,
      x.ticker = "AAPLX") ∧
    (∀ x ∈ read_all_assets (update_asset db "AAPL" "AAPLX" d s c k false).1 false,
      x.ticker ≠ "AAPL") ∧
    (∀ t ∈ db.transactions, t.ticker = "AAPL" →
      (⟨"AAPLX", t.transaction_date, t.transaction_type, t.amount, t.notes⟩ : Txn)
        ∈ (update_asset db "AAPL" "AAPLX" d s c k false).1.transactions) ∧
    (∀ t ∈ (update_asset db "AAPL" "AAPLX" d s c k false).1.transactions,
      t.ticker ≠ "AAPL") := by
  obtain ⟨x0, hx0, hx0t⟩ := h
  have hup : update_asset db "AAPL" "AAPLX" d s c k false
      = (⟨db.assets.map (fun a =>
            if a.ticker = "AAPL" then ⟨"AAPLX", d, s, c, k⟩ else a),
          cascadeRename "AAPL" "AAPLX" db.transactions⟩, true) := by
    have hex : ∃ x ∈ db.assets, x.ticker = "AAPL" := ⟨x0, hx0, hx0t⟩
    simp [update_asset, hex]
  rw [hup]
  have hra : read_all_assets
      ⟨db.assets.map (fun a =>
         if a.ticker = "AAPL" then ⟨"AAPLX", d, s, c, k⟩ else a),
        cascadeRename "AAPL" "AAPLX" db.transactions⟩ false
      = sortByTicker (db.assets.map (fun a =>
          if a.ticker = "AAPL" then ⟨"AAPLX", d, s, c, k⟩ else a)) := rfl
  refine ⟨rfl, ?_, ?_, ?_, ?_⟩
  · refine ⟨⟨"AAPLX", d, s, c, k⟩, ?_, rfl⟩
    rw [hra, mem_sortByTicker]
    have hmem := List.mem_map_of_mem
      (fun a => if a.ticker = "AAPL" then (⟨"AAPLX", d, s, c, k⟩ : Asset) else a) hx0
    simpa [hx0t] using hmem
  · intro x hx
    rw [hra, mem_sortByTicker, List.mem_map] at hx
    obtain ⟨a, _, rfl⟩ := hx
    by_cases hat : a.ticker = "AAPL"
    · simp [hat]
    · simp [hat]
  · intro t ht htt
    have hmem := List.mem_map_of_mem
      (fun u => if u.ticker = "AAPL" then
        (⟨"AAPLX", u.transaction_date, u.transaction_type, u.amount, u.notes⟩ : Txn)
        else u) ht
    simpa [cascadeRename, htt] using hmem
  · intro t ht
    simp only [cascadeRename, List.mem_map] at ht
    obtain ⟨u, _, rfl⟩ := ht
    by_cases hut : u.ticker = "AAPL"
    · simp [hut]
    · simp [hut]

/-- Witness for C4: one "AAPL" asset and one "AAPL" transaction, renamed
to "AAPLX". -/
theorem C4_witness :
    (∃ x ∈ (DBState.mk [⟨"AAPL", "2024-01-01", 10, 1500, "Equities"⟩]
        [⟨"AAPL", "2024-02-01", "Buy", 100, none⟩]).assets, x.ticker = "AAPL") ∧
    ((update_asset (DBState.mk [⟨"AAPL", "2024-01-01", 10, 1500, "Equities"⟩]
          [⟨"AAPL", "2024-02-01", "Buy", 100, none⟩])
        "AAPL" "AAPLX" "2024-01-01" 10 1500 "Equities" false).2 = true ∧
    (∃ x ∈ read_all_assets (update_asset
        (DBState.mk [⟨"AAPL", "2024-01-01", 10, 1500, "Equities"⟩]
          [⟨"AAPL", "2024-02-01", "Buy", 100, none⟩])
        "AAPL" "AAPLX" "2024-01-01" 10 1500 "Equities" false).1 false,
      x.ticker = "AAPLX") ∧
    (∀ x ∈ read_all_assets (update_asset
        (DBState.mk [⟨"AAPL", "2024-01-01", 10, 1500, "Equities"⟩]
          [⟨"AAPL", "2024-02-01", "Buy", 100, none⟩])
        "AAPL" "AAPLX" "2024-01-01" 10 1500 "Equities" false).1 false,
      x.ticker ≠ "AAPL") ∧
    (∀ t ∈ (DBState.mk [⟨"AAPL", "2024-01-01", 10, 1500, "Equities"⟩]
        [⟨"AAPL", "2024-02-01", "Buy", 100, none⟩]).transactions,
      t.ticker = "AAPL" →
      (⟨"AAPLX", t.transaction_date, t.transaction_type, t.amount, t.notes⟩ : Txn)
        ∈ (update_asset (DBState.mk [⟨"AAPL", "2024-01-01", 10, 1500, "Equities"⟩]
            [⟨"AAPL", "2024-02-01", "Buy", 100, none⟩])
          "AAPL" "AAPLX" "2024-01-01" 10 1500 "Equities" false).1.transactions) ∧
    (∀ t ∈ (update_asset (DBState.mk [⟨"AAPL", "2024-01-01", 10, 1500, "Equities"⟩]
          [⟨"AAPL", "2024-02-01", "Buy", 100, none⟩])
        "AAPL" "AAPLX" "2024-01-01" 10 1500 "Equities" false).1.transactions,
      t.ticker ≠ "AAPL")) :=
  ⟨⟨⟨"AAPL", "2024-01-01", 10, 1500, "Equities"⟩, by simp, rfl⟩,
   C4_rename_propagates _ _ _ _ _
     ⟨⟨"AAPL", "2024-01-01", 10, 1500, "Equities"⟩, by simp, rfl⟩⟩
